import Mathlib

/-
Verification development for the HeatMap desktop overlay (src/overlay.py).
Each Python function relevant to the specification claims is shallowly
embedded as an executable Lean definition; window-system and OS calls are
passed in as explicit environment data.  Python floats returned by sensors
are modelled as already-rounded integers (`round(float(v))` in the source),
and the one float division (VRAM percentage) is modelled with integer
division; no claim depends on rounding behaviour.
-/

namespace HeatMap

/-- Models the Python expression `needle in hay` on strings. -/
def strContains (hay needle : String) : Bool :=
  decide (needle.toList <:+: hay.toList)

/- ## Sensor backend model (LibreHardwareMonitor surface used by read_sensors) -/

/-- Hardware device categories used in `read_sensors` (`HardwareType`). -/
inductive HardwareType
  | Cpu
  | GpuAmd
  | GpuNvidia
  | GpuIntel
  | Storage
  | Motherboard
  | Memory
  | OtherHw
deriving DecidableEq

/-- Sensor kinds used in `read_sensors` (`SensorType`). -/
inductive SensorKind
  | Temperature
  | Load
  | Fan
  | Control
  | SmallData
  | OtherKind
deriving DecidableEq

/-- One sensor: kind, name and current value (`None` = absent reading). -/
structure Sensor where
  kind : SensorKind
  name : String
  value : Option Int
deriving DecidableEq

/-- A sub-hardware node (used by the motherboard branch). -/
structure SubHardware where
  sensors : List Sensor
deriving DecidableEq

/-- A hardware device with its sensors and sub-hardware. -/
structure Hardware where
  htype : HardwareType
  name : String
  sensors : List Sensor
  subhardware : List SubHardware
deriving DecidableEq

/-- The opened LibreHardwareMonitor `Computer` handle: its device tree. -/
structure Computer where
  hardware : List Hardware
deriving DecidableEq

/-- OS-aggregate counters (psutil): always-available CPU and RAM percent. -/
structure OsEnv where
  cpu_percent : Int
  ram_percent : Int
deriving DecidableEq

/-- One per-disk record of the snapshot (`data["disks"]` entries). -/
structure DiskRec where
  name : String
  temp : Option Int
  used_pct : Option Int
deriving DecidableEq

/-- The telemetry snapshot dict built by `read_sensors`. -/
structure SnapRec where
  cpu_temp : Option Int
  cpu_load : Option Int
  gpu_temp : Option Int
  gpu_load : Option Int
  cpu_fan : Option Int
  cpu_fan_pct : Option Int
  gpu_fan : Option Int
  gpu_fan_pct : Option Int
  gpu_vram_pct : Option Int
  ram_pct : Option Int
  disks : List DiskRec
deriving DecidableEq

/-- The initial snapshot dict of `read_sensors` (all fields absent). -/
def emptySnap : SnapRec :=
  { cpu_temp := none, cpu_load := none, gpu_temp := none, gpu_load := none,
    cpu_fan := none, cpu_fan_pct := none, gpu_fan := none, gpu_fan_pct := none,
    gpu_vram_pct := none, ram_pct := none, disks := [] }

/-- Vendor names of the disk-name regex, in the source's alternation order. -/
def vendorNames : List String :=
  ["Samsung", "WDC", "Western Digital", "Kingston", "Crucial", "Seagate",
   "Toshiba", "SK Hynix", "Intel", "Micron", "SanDisk", "ADATA", "Corsair"]

/-- First vendor name matching at the start of `name`, case-insensitively. -/
def findVendor (name : String) : Option String :=
  vendorNames.find? (fun p => name.toLower.startsWith p.toLower)

/-- Drops an optional leading `SSD` plus whitespace (`(SSD\s*)?`). -/
def dropSSD (s : String) : String :=
  if s.toLower.startsWith "ssd" then (s.drop 3).trimLeft else s

/-- Models the `re.sub` vendor-stripping of disk names in `read_sensors`:
strip a leading vendor name, whitespace and optional `SSD`, trim, and fall
back to the original name when the result is empty. -/
def stripVendor (name : String) : String :=
  let rest :=
    match findVendor name with
    | some pre => dropSSD ((name.drop pre.length).trimLeft)
    | none => name
  let t := rest.trim
  if t = "" then name else t

/-- The CPU branch of `read_sensors`, one sensor at a time. -/
def cpuSensorStep (d : SnapRec) (s : Sensor) : SnapRec :=
  match s.kind with
  | .Temperature =>
    let nm := s.name.toLower
    match s.value with
    | some v =>
      if strContains nm "tctl" || strContains nm "tdie" || strContains nm "package" then
        { d with cpu_temp := some v }
      else if d.cpu_temp = none then { d with cpu_temp := some v }
      else d
    | none => d
  | .Load =>
    if strContains s.name.toLower "total" then
      match s.value with
      | some v => { d with cpu_load := some v }
      | none => d
    else d
  | _ => d

/-- The GPU branch of `read_sensors`, one sensor at a time; the accumulator
also carries the local `gpu_mem_used` and `gpu_mem_total` variables. -/
def gpuSensorStep (acc : SnapRec × Option Int × Option Int) (s : Sensor) :
    SnapRec × Option Int × Option Int :=
  let (d, mu, mt) := acc
  match s.kind with
  | .Temperature =>
    if strContains s.name.toLower "core" || strContains s.name.toLower "gpu" then
      match s.value with
      | some v => ({ d with gpu_temp := some v }, mu, mt)
      | none => acc
    else acc
  | .Load =>
    if s.name.toLower = "gpu core" then
      match s.value with
      | some v => ({ d with gpu_load := some v }, mu, mt)
      | none => acc
    else acc
  | .Fan =>
    match s.value with
    | some v => ({ d with gpu_fan := some v }, mu, mt)
    | none => acc
  | .Control =>
    match s.value with
    | some v => ({ d with gpu_fan_pct := some v }, mu, mt)
    | none => acc
  | .SmallData =>
    let nm := s.name.toLower
    if nm = "gpu memory used" then
      match s.value with
      | some v => (d, some v, mt)
      | none => acc
    else if nm = "gpu memory total" then
      match s.value with
      | some v => (d, mu, some v)
      | none => acc
    else acc
  | _ => acc

/-- Processing of one GPU device, including the VRAM percentage. -/
def gpuProcess (d : SnapRec) (hw : Hardware) : SnapRec :=
  let r := hw.sensors.foldl gpuSensorStep (d, none, none)
  match r.2.1, r.2.2 with
  | some u, some t =>
    if t > 0 then { r.1 with gpu_vram_pct := some (u * 100 / t) } else r.1
  | _, _ => r.1

/-- The storage branch of `read_sensors`, accumulating the local
`disk_temp` and `disk_used` variables. -/
def storageSensorStep (acc : Option Int × Option Int) (s : Sensor) :
    Option Int × Option Int :=
  match s.kind with
  | .Temperature =>
    match s.value with
    | some v =>
      if strContains s.name.toLower "temperature" then
        (if acc.1 = none then some v else acc.1, acc.2)
      else acc
    | none => acc
  | .Load =>
    if strContains s.name.toLower "used space" then
      match s.value with
      | some v => (acc.1, some v)
      | none => acc
    else acc
  | _ => acc

/-- Processing of one storage device: appends a disk record when any of the
two readings is present. -/
def storageProcess (d : SnapRec) (hw : Hardware) : SnapRec :=
  let r := hw.sensors.foldl storageSensorStep (none, none)
  if r.1 ≠ none ∨ r.2 ≠ none then
    { d with disks := d.disks ++ [{ name := stripVendor hw.name, temp := r.1, used_pct := r.2 }] }
  else d

/-- Inner sensor fold of the motherboard branch, collecting `cpu_fan` and
the local `control_sensors` list. -/
def mbSensorStep (acc : SnapRec × List (String × Int)) (s : Sensor) :
    SnapRec × List (String × Int) :=
  let nm := s.name.toLower
  match s.kind with
  | .Fan =>
    match s.value with
    | some v =>
      if strContains nm "cpu" && !(strContains nm "optional") then
        ({ acc.1 with cpu_fan := some v }, acc.2)
      else acc
    | none => acc
  | .Control =>
    match s.value with
    | some v => (acc.1, acc.2 ++ [(nm, v)])
    | none => acc
  | _ => acc

/-- Processing of one motherboard sub-hardware node, including the
`cpu_fan_pct` matching priority (cpu, then #1, then first control). -/
def mbSubStep (d : SnapRec) (sub : SubHardware) : SnapRec :=
  let r := sub.sensors.foldl mbSensorStep (d, [])
  let d1 := r.1
  let controls := r.2
  if d1.cpu_fan_pct = none then
    match controls.find? (fun c => strContains c.1 "cpu") with
    | some c => { d1 with cpu_fan_pct := some c.2 }
    | none =>
      match controls.find? (fun c => strContains c.1 "#1") with
      | some c => { d1 with cpu_fan_pct := some c.2 }
      | none =>
        match controls with
        | c :: _ => if d1.cpu_fan ≠ none then { d1 with cpu_fan_pct := some c.2 } else d1
        | [] => d1
  else d1

/-- The memory branch of `read_sensors`, one sensor at a time. -/
def memSensorStep (d : SnapRec) (s : Sensor) : SnapRec :=
  match s.kind with
  | .Load =>
    if s.name.toLower = "memory" then
      match s.value with
      | some v => { d with ram_pct := some v }
      | none => d
    else d
  | _ => d

/-- Dispatch on the hardware type, as the if/elif chain of `read_sensors`;
an Intel GPU is skipped when a discrete GPU already supplied a temperature. -/
def hardwareStep (d : SnapRec) (hw : Hardware) : SnapRec :=
  match hw.htype with
  | .Cpu => hw.sensors.foldl cpuSensorStep d
  | .GpuAmd => gpuProcess d hw
  | .GpuNvidia => gpuProcess d hw
  | .GpuIntel => if d.gpu_temp ≠ none then d else gpuProcess d hw
  | .Storage => storageProcess d hw
  | .Motherboard => hw.subhardware.foldl mbSubStep d
  | .Memory => hw.sensors.foldl memSensorStep d
  | .OtherHw => d

/-- The hardware enumeration loop of `read_sensors`. -/
def hwScan (comp : Computer) : SnapRec :=
  comp.hardware.foldl hardwareStep emptySnap

/-- `read_sensors(computer)`: degraded psutil-only snapshot when the backend
handle is null, otherwise the hardware scan followed by the psutil
fallbacks for `cpu_load` and `ram_pct`. -/
def read_sensors (env : OsEnv) : Option Computer → SnapRec
  | none =>
    { emptySnap with cpu_load := some env.cpu_percent, ram_pct := some env.ram_percent }
  | some comp =>
    let d := hwScan comp
    let d1 := if d.cpu_load = none then { d with cpu_load := some env.cpu_percent } else d
    if d1.ram_pct = none then { d1 with ram_pct := some env.ram_percent } else d1

/- ## Configuration model (load_config / save_config) -/

/-- The persisted configuration, restricted to its six documented fields. -/
structure Config where
  x : Int
  y : Int
  peek_enabled : Bool
  alerts_enabled : Bool
  gpu_fan_max_rpm : Int
  cpu_fan_max_rpm : Int
deriving DecidableEq

/-- The `defaults` dict of `load_config`. -/
def defaultConfig : Config :=
  { x := 50, y := 50, peek_enabled := true, alerts_enabled := true,
    gpu_fan_max_rpm := 2200, cpu_fan_max_rpm := 1800 }

/-- JSON scalar values that can appear as a config field. -/
inductive JVal
  | jnull
  | jbool (b : Bool)
  | jint (n : Int)
  | jstr (s : String)
deriving DecidableEq

/-- A parsed config document: a JSON object, or any non-object value. -/
inductive JDoc
  | obj (fields : List (String × JVal))
  | nonObj
deriving DecidableEq

/-- Python `isinstance(v, (int, float))` plus `int(v)`: booleans count as
integers in Python (`bool` subclasses `int`), so `true` converts to 1. -/
def asNum : JVal → Option Int
  | .jint n => some n
  | .jbool b => some (if b then 1 else 0)
  | _ => none

/-- Validation of the `x` / `y` fields of `load_config`. -/
def loadIntField (fs : List (String × JVal)) (key : String) (dflt : Int) : Int :=
  match fs.lookup key with
  | some v =>
    match asNum v with
    | some n => n
    | none => dflt
  | none => dflt

/-- Validation of the boolean fields of `load_config`. -/
def loadBoolField (fs : List (String × JVal)) (key : String) (dflt : Bool) : Bool :=
  match fs.lookup key with
  | some (.jbool b) => b
  | _ => dflt

/-- Validation of the fan-ceiling fields of `load_config` (numeric and
strictly positive, else the default). -/
def loadPosField (fs : List (String × JVal)) (key : String) (dflt : Int) : Int :=
  match fs.lookup key with
  | some v =>
    match asNum v with
    | some n => if n ≤ 0 then dflt else n
    | none => dflt
  | none => dflt

/-- `load_config()`: `none` models an unreadable or unparsable file. -/
def load_config : Option JDoc → Config
  | none => defaultConfig
  | some .nonObj => defaultConfig
  | some (.obj fs) =>
    { x := loadIntField fs "x" 50,
      y := loadIntField fs "y" 50,
      peek_enabled := loadBoolField fs "peek_enabled" true,
      alerts_enabled := loadBoolField fs "alerts_enabled" true,
      gpu_fan_max_rpm := loadPosField fs "gpu_fan_max_rpm" 2200,
      cpu_fan_max_rpm := loadPosField fs "cpu_fan_max_rpm" 1800 }

/-- The JSON fields `json.dump` writes for a config. -/
def cfgFields (c : Config) : List (String × JVal) :=
  [("x", .jint c.x), ("y", .jint c.y),
   ("peek_enabled", .jbool c.peek_enabled),
   ("alerts_enabled", .jbool c.alerts_enabled),
   ("gpu_fan_max_rpm", .jint c.gpu_fan_max_rpm),
   ("cpu_fan_max_rpm", .jint c.cpu_fan_max_rpm)]

/-- `save_config(cfg)`: serialises the config as a JSON object. -/
def save_config (c : Config) : JDoc := .obj (cfgFields c)

/-- Replaces the value stored under `k`, keeping all other fields. -/
def withKey (k : String) (v : JVal) (fs : List (String × JVal)) : List (String × JVal) :=
  fs.map (fun p => if p.1 = k then (k, v) else p)

/-- Removes the field stored under `k`. -/
def withoutKey (k : String) (fs : List (String × JVal)) : List (String × JVal) :=
  fs.filter (fun p => p.1 ≠ k)

/-- A value the x/y validator rejects (not numeric in Python's sense). -/
def numRejected (v : JVal) : Bool := (asNum v).isNone

/-- A value the boolean validator rejects. -/
def boolRejected : JVal → Bool
  | .jbool _ => false
  | _ => true

/-- A value the fan-ceiling validator rejects. -/
def posRejected (v : JVal) : Bool :=
  match asNum v with
  | some n => decide (n ≤ 0)
  | none => true

/- ## Sensor polling loop model (OverlayApp.sensor_loop) -/

/-- Events observable from one loop iteration: lock acquire/release on the
mutex id guarding the backend handle, `Close()` and reinitialization. -/
inductive SEvt
  | acqE (m : Nat)
  | relE (m : Nat)
  | closeE
  | reinitE
deriving DecidableEq

/-- A value published into the shared slot: a snapshot or an error marker. -/
inductive PubVal
  | dataV (d : SnapRec)
  | errV (msg : String)
deriving DecidableEq

/-- Outcome of `read_sensors` in one iteration: normal return or an
exception with its message. -/
inductive ReadOut
  | okR
  | raiseR (msg : String)
deriving DecidableEq

/-- Whether an outcome is an exception. -/
def isFail : ReadOut → Bool
  | .okR => false
  | .raiseR _ => true

/-- Environment of one loop iteration: the psutil counters, whether the
read raises, and what `init_hardware_monitor()` would return if called. -/
structure IterIn where
  env : OsEnv
  outcome : ReadOut
  reinitResult : Option Computer

/-- State of the polling loop: the mutex id of `self.lock`, the backend
handle `self.computer`, the `consecutive_errors` counter, the sequence of
published values and the event trace. -/
structure LoopSt where
  mutex : Nat
  computer : Option Computer
  counter : Nat
  published : List PubVal
  events : List SEvt

/-- One iteration of `sensor_loop`: read the handle under the lock, read
the sensors, publish under the lock; on an exception count it, publish the
error marker, and once the counter reaches 3 with a non-null handle, close
and reinitialize under the lock and reset the counter. -/
def sensor_iter (st : LoopSt) (i : IterIn) : LoopSt :=
  let comp := st.computer
  let st0 := { st with events := st.events ++ [SEvt.acqE st.mutex, SEvt.relE st.mutex] }
  match i.outcome with
  | .okR =>
    { st0 with
      events := st0.events ++ [SEvt.acqE st0.mutex, SEvt.relE st0.mutex],
      published := st0.published ++ [PubVal.dataV (read_sensors i.env comp)],
      counter := 0 }
  | .raiseR msg =>
    let st1 :=
      { st0 with
        counter := st0.counter + 1,
        events := st0.events ++ [SEvt.acqE st0.mutex, SEvt.relE st0.mutex],
        published := st0.published ++ [PubVal.errV msg] }
    if 3 ≤ st1.counter ∧ comp.isSome = true then
      { st1 with
        events := st1.events ++ [SEvt.acqE st1.mutex, SEvt.closeE, SEvt.reinitE, SEvt.relE st1.mutex],
        computer := i.reinitResult,
        counter := 0 }
    else st1

/-- A run of the polling loop over a sequence of iteration environments. -/
def sensor_run (st : LoopSt) (is : List IterIn) : LoopSt :=
  is.foldl sensor_iter st

/-- Number of `Close()` events in a trace. -/
def countClose : List SEvt → Nat
  | [] => 0
  | .closeE :: es => countClose es + 1
  | _ :: es => countClose es

/-- Number of reinitialization events in a trace. -/
def countReinit : List SEvt → Nat
  | [] => 0
  | .reinitE :: es => countReinit es + 1
  | _ :: es => countReinit es

/- ## Shared telemetry store model (self.sensor_data under self.lock) -/

/-- A per-disk dict as a Python object: payload plus object identity. -/
structure DiskObj where
  oid : Nat
  name : String
  temp : Option Int
  used_pct : Option Int
deriving DecidableEq

/-- A snapshot dict as a Python object: the top dict's identity, the
identity of the `disks` list object, and the payload. -/
structure SnapObj where
  oid : Nat
  disks_oid : Nat
  cpu_temp : Option Int
  cpu_load : Option Int
  gpu_temp : Option Int
  gpu_load : Option Int
  cpu_fan : Option Int
  cpu_fan_pct : Option Int
  gpu_fan : Option Int
  gpu_fan_pct : Option Int
  gpu_vram_pct : Option Int
  ram_pct : Option Int
  disks : List DiskObj
deriving DecidableEq

/-- A stored value: a snapshot object or an error-marker dict. -/
inductive StoredVal
  | snapO (s : SnapObj)
  | errO (oid : Nat) (msg : String)
deriving DecidableEq

/-- A stored value with object identities erased (pure structure). -/
inductive StoredRec
  | snapR (d : SnapRec)
  | errR (msg : String)
deriving DecidableEq

/-- Erase a disk object's identity. -/
def stripDisk (d : DiskObj) : DiskRec :=
  { name := d.name, temp := d.temp, used_pct := d.used_pct }

/-- Erase a snapshot object's identities. -/
def stripSnap (s : SnapObj) : SnapRec :=
  { cpu_temp := s.cpu_temp, cpu_load := s.cpu_load, gpu_temp := s.gpu_temp,
    gpu_load := s.gpu_load, cpu_fan := s.cpu_fan, cpu_fan_pct := s.cpu_fan_pct,
    gpu_fan := s.gpu_fan, gpu_fan_pct := s.gpu_fan_pct,
    gpu_vram_pct := s.gpu_vram_pct, ram_pct := s.ram_pct,
    disks := s.disks.map stripDisk }

/-- Structure of a stored value, with identities erased. -/
def stripVal : StoredVal → StoredRec
  | .snapO s => .snapR (stripSnap s)
  | .errO _ m => .errR m

/-- All object identities reachable from a stored value. -/
def idsVal : StoredVal → List Nat
  | .snapO s => s.oid :: s.disks_oid :: s.disks.map (fun d => d.oid)
  | .errO o _ => [o]

/-- Identity of the root object of a stored value. -/
def rootOid : StoredVal → Nat
  | .snapO s => s.oid
  | .errO o _ => o

/-- Number of objects a deep copy of the value allocates. -/
def numIds : StoredVal → Nat
  | .snapO s => 2 + s.disks.length
  | .errO _ _ => 1

/-- All identities of a value are below `n` (fresh ids start at `n`). -/
def boundedVal (n : Nat) (v : StoredVal) : Prop :=
  ∀ i ∈ idsVal v, i < n

instance (n : Nat) (v : StoredVal) : Decidable (boundedVal n v) :=
  List.decidableBAll _ _

/-- Deep copy of the disk objects, with fresh consecutive identities. -/
def copyDisks (n : Nat) : List DiskObj → List DiskObj
  | [] => []
  | d :: ds => { d with oid := n } :: copyDisks (n + 1) ds

/-- `copy.deepcopy`: same structure, every object at a fresh identity
at or above `n`. -/
def deepcopy (n : Nat) : StoredVal → StoredVal
  | .snapO s =>
    .snapO { s with oid := n, disks_oid := n + 1, disks := copyDisks (n + 2) s.disks }
  | .errO _ m => .errO n m

/-- The scalar fields of the top-level snapshot dict. -/
inductive TopField
  | fCpuTemp
  | fCpuLoad
  | fGpuTemp
  | fGpuLoad
  | fCpuFan
  | fCpuFanPct
  | fGpuFan
  | fGpuFanPct
  | fGpuVramPct
  | fRamPct
deriving DecidableEq

/-- Write one scalar field of a snapshot object. -/
def setTop (f : TopField) (v : Option Int) (s : SnapObj) : SnapObj :=
  match f with
  | .fCpuTemp => { s with cpu_temp := v }
  | .fCpuLoad => { s with cpu_load := v }
  | .fGpuTemp => { s with gpu_temp := v }
  | .fGpuLoad => { s with gpu_load := v }
  | .fCpuFan => { s with cpu_fan := v }
  | .fCpuFanPct => { s with cpu_fan_pct := v }
  | .fGpuFan => { s with gpu_fan := v }
  | .fGpuFanPct => { s with gpu_fan_pct := v }
  | .fGpuVramPct => { s with gpu_vram_pct := v }
  | .fRamPct => { s with ram_pct := v }

/-- Mutations a holder of a reference can perform: write a top-level field
through the dict's identity, write a disk dict's field through its
identity, or append to the disks list through the list's identity. -/
inductive Mutation
  | mSetTop (f : TopField) (v : Option Int)
  | mSetDiskTemp (v : Option Int)
  | mSetDiskUsed (v : Option Int)
  | mSetDiskName (nm : String)
  | mAppendDisk (d : DiskObj)

/-- Apply a mutation through the object whose identity is `target`; objects
with other identities are untouched (Python aliasing semantics). -/
def applyMut (target : Nat) (m : Mutation) : StoredVal → StoredVal
  | .snapO s =>
    match m with
    | .mSetTop f v => if s.oid = target then .snapO (setTop f v s) else .snapO s
    | .mSetDiskTemp v =>
      .snapO { s with disks := s.disks.map (fun d => if d.oid = target then { d with temp := v } else d) }
    | .mSetDiskUsed v =>
      .snapO { s with disks := s.disks.map (fun d => if d.oid = target then { d with used_pct := v } else d) }
    | .mSetDiskName nm =>
      .snapO { s with disks := s.disks.map (fun d => if d.oid = target then { d with name := nm } else d) }
    | .mAppendDisk nd =>
      if s.disks_oid = target then .snapO { s with disks := s.disks ++ [nd] } else .snapO s
  | .errO o msg => .errO o msg

/-- Lock events of the telemetry store operations. -/
inductive LockEvt
  | acqL (m : Nat)
  | relL (m : Nat)
deriving DecidableEq

/-- The shared slot: its mutex id, the stored value, and the next fresh
object identity (models the allocator). -/
structure Store where
  mutex : Nat
  sensor_data : StoredVal
  next_id : Nat

/-- `publish`: overwrite the slot with the snapshot reference, under the
mutex (the assignment `self.sensor_data = data` in the source). -/
def Store.publish (st : Store) (v : StoredVal) : Store × List LockEvt :=
  ({ st with sensor_data := v }, [.acqL st.mutex, .relL st.mutex])

/-- `read`: return `copy.deepcopy(self.sensor_data)` under the same mutex,
leaving the stored value untouched and advancing the allocator. -/
def Store.read (st : Store) : StoredVal × Store × List LockEvt :=
  (deepcopy st.next_id st.sensor_data,
   { st with next_id := st.next_id + numIds st.sensor_data },
   [.acqL st.mutex, .relL st.mutex])

/- ## Screen geometry model (_update_trigger_geometry / _poll_screen_change) -/

/-- Virtual-screen bounds (GetSystemMetrics SM_*VIRTUALSCREEN). -/
structure Geom where
  x : Int
  y : Int
  w : Int
  h : Int
deriving DecidableEq

/-- A window rectangle (the trigger strip's geometry). -/
structure Rect where
  x : Int
  y : Int
  w : Int
  h : Int
deriving DecidableEq

/-- `_update_trigger_geometry`: a 6-pixel-wide strip spanning the full
virtual height, anchored at the right edge of the virtual screen. -/
def update_trigger_geometry (g : Geom) : Rect :=
  { x := g.x + g.w - 6, y := g.y, w := 6, h := g.h }

/-- State touched by the screen-geometry poll: the cached last geometry,
the trigger rectangle, and the persisted position fields of the config. -/
structure ScreenSt where
  last : Geom
  trigger : Rect
  cfg_x : Int
  cfg_y : Int
deriving DecidableEq

/-- `_poll_screen_change`: if the virtual bounds changed, remember them and
reposition the trigger strip.  Nothing else is modified. -/
def poll_screen_change (st : ScreenSt) (cur : Geom) : ScreenSt :=
  if cur ≠ st.last then
    { st with last := cur, trigger := update_trigger_geometry cur }
  else st

/-- The startup position validation in `OverlayApp.__init__`: a saved
position outside the virtual bounds is reset to (50, 50). -/
def validate_start_pos (g : Geom) (cx cy : Int) : Int × Int :=
  if cx < g.x ∨ cx ≥ g.x + g.w ∨ cy < g.y ∨ cy ≥ g.y + g.h then (50, 50)
  else (cx, cy)

/- ## Peek state machine model (_is_desktop_visible / _peek_show) -/

/-- Window-system facts the hit test consults: the window at a point (0 is
the null HWND), the root ancestor of a window, a window's class name, the
widget's current on-screen position, the virtual bounds and widget width. -/
structure WinEnv where
  winFromPoint : Int × Int → Nat
  ancestorRoot : Nat → Nat
  className : Nat → String
  root_x : Int
  root_y : Int
  virt_x : Int
  virt_w : Int
  overlay_w : Int

/-- The peek-related state of the overlay. -/
structure PeekSt where
  peek_visible : Bool
  peek_animating : Bool
  topmost : Bool
  embedded : Bool
  saved_pos : Option (Int × Int)
  cfg_x : Int
  cfg_y : Int
deriving DecidableEq

/-- `_is_desktop_visible`: hit-test a point near the remembered (or
current) position and accept only desktop-layer window classes. -/
def is_desktop_visible (saved : Option (Int × Int)) (env : WinEnv) : Bool :=
  let p : Int × Int :=
    match saved with
    | some sp => (sp.1 + 10, sp.2 + 10)
    | none => (env.root_x + 10, env.root_y + 10)
  let hwnd := env.winFromPoint p
  if hwnd = 0 then true
  else
    let r0 := env.ancestorRoot hwnd
    let root := if r0 = 0 then hwnd else r0
    let nm := env.className root
    decide (nm = "Progman" ∨ nm = "WorkerW" ∨ nm = "")

/-- Parameters of a started slide animation. -/
structure SlideCmd where
  start_x : Int
  target_x : Int
  y : Int
  step : Int
deriving DecidableEq

/-- `_peek_show`: guarded by the visible/animating/topmost flags and by the
desktop hit test; when it proceeds it remembers the docked position,
unembeds, and starts the slide-in from the screen's right edge. -/
def peek_show (st : PeekSt) (env : WinEnv) : PeekSt × Option SlideCmd :=
  if st.peek_visible || st.peek_animating || st.topmost then (st, none)
  else if is_desktop_visible st.saved_pos env then (st, none)
  else
    let saved := (st.cfg_x, st.cfg_y)
    let screen_right := env.virt_x + env.virt_w
    let target_x := screen_right - env.overlay_w
    ({ st with peek_animating := true, saved_pos := some saved, embedded := false },
     some { start_x := screen_right, target_x := target_x, y := saved.2, step := -20 })

/- ## Slide animation model (_animate_slide) -/

/-- `_animate_slide`: each invocation consumes one unit of fuel; the result
is the final geometry `(x, y)` if the recursion completes within the fuel,
`none` if it was cancelled or the fuel ran out. -/
def animate_slide (running animating : Bool) : Nat → Int → Int → Int → Int → Option (Int × Int)
  | 0, _, _, _, _ => none
  | fuel + 1, cx, tx, y, step =>
    if !(running && animating) then none
    else if step < 0 ∧ cx ≤ tx then some (tx, y)
    else if step > 0 ∧ cx ≥ tx then some (tx, y)
    else animate_slide running animating fuel (cx + step) tx y step

/- ## Drag model (on_drag / end_drag) -/

/-- State touched by the drag handlers: window position, drag anchor, peek
flags, the remembered-position slot, and the config position fields. -/
structure DragSt where
  win_x : Int
  win_y : Int
  drag_x : Int
  drag_y : Int
  peek_visible : Bool
  peek_animating : Bool
  saved_pos : Option (Int × Int)
  cfg_x : Int
  cfg_y : Int
deriving DecidableEq

/-- `on_drag`: move the window; while peeking or animating record the new
position in the remembered slot, otherwise write it to the config. -/
def on_drag (st : DragSt) (ex ey : Int) : DragSt :=
  let x := st.win_x + ex - st.drag_x
  let y := st.win_y + ey - st.drag_y
  let st1 := { st with win_x := x, win_y := y }
  if st1.peek_visible || st1.peek_animating then
    { st1 with saved_pos := some (x, y) }
  else
    { st1 with cfg_x := x, cfg_y := y }

/-- `end_drag`: if the remembered slot is set, commit it to the config;
then `save_config` writes the config (the second component is the
position persisted to disk). -/
def end_drag (st : DragSt) : DragSt × (Int × Int) :=
  let st1 :=
    match st.saved_pos with
    | some sp => { st with cfg_x := sp.1, cfg_y := sp.2 }
    | none => st
  (st1, (st1.cfg_x, st1.cfg_y))

/- ## UI fan-ceiling calibration model (update_ui, lines 1059-1065) -/

/-- The two auto-calibrated fan ceilings. -/
structure UISt where
  gpu_max : Int
  cpu_max : Int
deriving DecidableEq

/-- What one UI tick reads from the store: the initial empty dict, an
error marker, or a snapshot. -/
inductive UIData
  | emptyD
  | errD (msg : String)
  | dataD (d : SnapRec)
deriving DecidableEq

/-- The calibration portion of `update_ui`: empty and error data return
early; otherwise each ceiling is raised to an observed fan RPM that
strictly exceeds it. -/
def update_ui_calibrate (st : UISt) (t : UIData) : UISt :=
  match t with
  | .emptyD => st
  | .errD _ => st
  | .dataD d =>
    let st1 :=
      match d.gpu_fan with
      | some f => if f > st.gpu_max then { st with gpu_max := f } else st
      | none => st
    match d.cpu_fan with
    | some f => if f > st1.cpu_max then { st1 with cpu_max := f } else st1
    | none => st1

/-- The GPU fan observation a tick contributes, if any. -/
def gpuObs : UIData → Option Int
  | .dataD d => d.gpu_fan
  | _ => none

/-- The CPU fan observation a tick contributes, if any. -/
def cpuObs : UIData → Option Int
  | .dataD d => d.cpu_fan
  | _ => none

/- ## Theorems -/

/-- Ceiling property of the fuel bound: `d <= ceil(d / s) * s`. -/
theorem ceil_mul_ge (d s : Nat) (hs : 0 < s) : d ≤ ((d + s - 1) / s) * s := by
  have _h1 := Nat.div_add_mod (d + s - 1) s
  have _h2 : (d + s - 1) % s < s := Nat.mod_lt _ hs
  rw [Nat.mul_comm]
  omega

/-- An uncancelled slide with enough fuel snaps exactly to the target. -/
theorem animate_slide_reaches (step : Int) :
    ∀ (n : Nat) (cx tx y : Int),
      (0 < step → tx - cx ≤ (n : Int) * step) →
      (step < 0 → cx - tx ≤ (n : Int) * (-step)) →
      step ≠ 0 →
      animate_slide true true (n + 1) cx tx y step = some (tx, y) := by
  intro n
  induction n with
  | zero =>
    intro cx tx y h1 h2 h0
    rcases lt_or_gt_of_ne h0 with hneg | hpos
    · have hc : cx ≤ tx := by have := h2 hneg; simp at this; omega
      simp [animate_slide, hneg, hc]
    · have hc : tx ≤ cx := by have := h1 hpos; simp at this; omega
      have hns : ¬(step < 0 ∧ cx ≤ tx) := by
        intro hh; omega
      simp only [animate_slide, Bool.and_self, Bool.not_true, Bool.false_eq_true,
        if_false]
      rw [if_neg hns, if_pos ⟨hpos, hc⟩]
  | succ n ih =>
    intro cx tx y h1 h2 h0
    by_cases hs1 : step < 0 ∧ cx ≤ tx
    · simp only [animate_slide, Bool.and_self, Bool.not_true, Bool.false_eq_true,
        if_false]
      rw [if_pos hs1]
    · by_cases hs2 : step > 0 ∧ cx ≥ tx
      · simp only [animate_slide, Bool.and_self, Bool.not_true, Bool.false_eq_true,
          if_false]
        rw [if_neg hs1, if_pos hs2]
      · have hrec := ih (cx + step) tx y ?_ ?_ h0
        · simp only [animate_slide, Bool.and_self, Bool.not_true, Bool.false_eq_true,
            if_false]
          rw [if_neg hs1, if_neg hs2]
          exact hrec
        · intro hpos
          have hb := h1 hpos
          have hexp : ((n : Int) + 1) * step = (n : Int) * step + step := by ring
          push_cast at hb ⊢
          omega
        · intro hneg
          have hb := h2 hneg
          have hexp : ((n : Int) + 1) * (-step) = (n : Int) * (-step) + (-step) := by ring
          push_cast at hb ⊢
          omega

/-- C4: every slide animation whose fixed nonzero step points from the
start toward the target, and which is not cancelled (running and animating
stay true), terminates within `ceil(|target - start| / |step|) + 1` ticks
with the final position snapped exactly to the target. -/
theorem animate_slide_terminates (running animating : Bool) (start target y step : Int)
    (hr : running = true) (ha : animating = true) (h0 : step ≠ 0)
    (h1 : 0 < step → start ≤ target) (h2 : step < 0 → target ≤ start) :
    animate_slide running animating
      (((target - start).natAbs + step.natAbs - 1) / step.natAbs + 1)
      start target y step = some (target, y) := by
  subst hr ha
  apply animate_slide_reaches step _ start target y _ _ h0
  · intro hpos
    have hks := ceil_mul_ge (target - start).natAbs step.natAbs (by positivity)
    have hstep : ((step.natAbs : Int)) = step := Int.natAbs_of_nonneg (le_of_lt hpos)
    have hd : target - start ≤ ((target - start).natAbs : Int) := Int.le_natAbs
    calc target - start ≤ ((target - start).natAbs : Int) := hd
      _ ≤ ((((target - start).natAbs + step.natAbs - 1) / step.natAbs) * step.natAbs : Nat) := by
          exact_mod_cast hks
      _ = ((((target - start).natAbs + step.natAbs - 1) / step.natAbs : Nat) : Int) * step := by
          push_cast [hstep]; ring
  · intro hneg
    have hks := ceil_mul_ge (target - start).natAbs step.natAbs (by positivity)
    have hstep : ((step.natAbs : Int)) = -step := by
      rw [← Int.natAbs_neg]
      exact Int.natAbs_of_nonneg (by omega)
    have hd : start - target ≤ ((target - start).natAbs : Int) := by
      rw [← Int.natAbs_neg, neg_sub]
      exact Int.le_natAbs
    calc start - target ≤ ((target - start).natAbs : Int) := hd
      _ ≤ ((((target - start).natAbs + step.natAbs - 1) / step.natAbs) * step.natAbs : Nat) := by
          exact_mod_cast hks
      _ = ((((target - start).natAbs + step.natAbs - 1) / step.natAbs : Nat) : Int) * (-step) := by
          push_cast [hstep]; ring

/-- Witness for C4: the slide-in of `_peek_show` (start 1920, target 1720,
step -20) completes within the bound and snaps to the target. -/
theorem animate_slide_terminates_witness :
    true = true ∧ true = true ∧ ((-20 : Int) ≠ 0) ∧
    (0 < (-20 : Int) → (1920 : Int) ≤ 1720) ∧ ((-20 : Int) < 0 → (1720 : Int) ≤ 1920) ∧
    animate_slide true true
      ((((1720 : Int) - 1920).natAbs + ((-20 : Int)).natAbs - 1) / ((-20 : Int)).natAbs + 1)
      1920 1720 110 (-20) = some (1720, 110) :=
  ⟨rfl, rfl, by decide, by decide, by decide,
    animate_slide_terminates true true 1920 1720 110 (-20) rfl rfl (by decide)
      (by decide) (by decide)⟩

/-- One UI tick updates the GPU ceiling to the max with the observation. -/
theorem gpu_step_eq (st : UISt) (t : UIData) :
    (update_ui_calibrate st t).gpu_max = max st.gpu_max ((gpuObs t).getD st.gpu_max) := by
  cases t with
  | emptyD => simp [update_ui_calibrate, gpuObs]
  | errD m => simp [update_ui_calibrate, gpuObs]
  | dataD d =>
    rcases hg : d.gpu_fan with _ | f
    · rcases hc : d.cpu_fan with _ | f2
      · simp [update_ui_calibrate, gpuObs, hg, hc]
      · simp only [update_ui_calibrate, gpuObs, hg, hc, Option.getD_some, Option.getD_none]
        split <;> simp
    · rcases hc : d.cpu_fan with _ | f2
      · simp only [update_ui_calibrate, gpuObs, hg, hc, Option.getD_some]
        split <;> rename_i h <;> simp <;> omega
      · simp only [update_ui_calibrate, gpuObs, hg, hc, Option.getD_some]
        by_cases h1 : f > st.gpu_max
        · simp only [if_pos h1]
          split <;> simp <;> omega
        · simp only [if_neg h1]
          split <;> simp <;> omega

/-- One UI tick updates the CPU ceiling to the max with the observation. -/
theorem cpu_step_eq (st : UISt) (t : UIData) :
    (update_ui_calibrate st t).cpu_max = max st.cpu_max ((cpuObs t).getD st.cpu_max) := by
  cases t with
  | emptyD => simp [update_ui_calibrate, cpuObs]
  | errD m => simp [update_ui_calibrate, cpuObs]
  | dataD d =>
    rcases hg : d.gpu_fan with _ | f
    · rcases hc : d.cpu_fan with _ | f2
      · simp [update_ui_calibrate, cpuObs, hg, hc]
      · simp only [update_ui_calibrate, cpuObs, hg, hc, Option.getD_some]
        split <;> simp <;> omega
    · rcases hc : d.cpu_fan with _ | f2
      · simp only [update_ui_calibrate, cpuObs, hg, hc, Option.getD_none]
        split <;> simp
      · simp only [update_ui_calibrate, cpuObs, hg, hc, Option.getD_some]
        by_cases h1 : f > st.gpu_max
        · simp only [if_pos h1]
          split <;> simp <;> omega
        · simp only [if_neg h1]
          split <;> simp <;> omega

/-- Folding the calibration over ticks folds max over GPU observations. -/
theorem foldl_calibrate_gpu (ts : List UIData) :
    ∀ st : UISt,
      (ts.foldl update_ui_calibrate st).gpu_max = (ts.filterMap gpuObs).foldl max st.gpu_max := by
  induction ts with
  | nil => intro st; rfl
  | cons t ts ih =>
    intro st
    rw [List.foldl_cons, ih, List.filterMap_cons]
    cases h : gpuObs t with
    | none =>
      have := gpu_step_eq st t
      rw [h] at this
      simp at this
      rw [this]
    | some f =>
      have := gpu_step_eq st t
      rw [h] at this
      simp at this
      rw [List.foldl_cons, this]

/-- Folding the calibration over ticks folds max over CPU observations. -/
theorem foldl_calibrate_cpu (ts : List UIData) :
    ∀ st : UISt,
      (ts.foldl update_ui_calibrate st).cpu_max = (ts.filterMap cpuObs).foldl max st.cpu_max := by
  induction ts with
  | nil => intro st; rfl
  | cons t ts ih =>
    intro st
    rw [List.foldl_cons, ih, List.filterMap_cons]
    cases h : cpuObs t with
    | none =>
      have := cpu_step_eq st t
      rw [h] at this
      simp at this
      rw [this]
    | some f =>
      have := cpu_step_eq st t
      rw [h] at this
      simp at this
      rw [List.foldl_cons, this]

/-- C9: over any run of UI refresh ticks each fan-speed ceiling equals the
maximum of its initial configured value and all fan RPM readings observed
so far; each tick leaves a ceiling unchanged or raises it to an observed
RPM strictly exceeding it (monotone non-decreasing). -/
theorem fan_ceilings_are_running_max (g0 c0 : Int) (ts : List UIData) :
    (ts.foldl update_ui_calibrate { gpu_max := g0, cpu_max := c0 }).gpu_max
        = (ts.filterMap gpuObs).foldl max g0 ∧
    (ts.foldl update_ui_calibrate { gpu_max := g0, cpu_max := c0 }).cpu_max
        = (ts.filterMap cpuObs).foldl max c0 ∧
    (∀ (st : UISt) (t : UIData),
        st.gpu_max ≤ (update_ui_calibrate st t).gpu_max ∧
        st.cpu_max ≤ (update_ui_calibrate st t).cpu_max) ∧
    (∀ (st : UISt) (t : UIData),
        (update_ui_calibrate st t).gpu_max = st.gpu_max ∨
        ∃ f, gpuObs t = some f ∧ st.gpu_max < f ∧ (update_ui_calibrate st t).gpu_max = f) ∧
    (∀ (st : UISt) (t : UIData),
        (update_ui_calibrate st t).cpu_max = st.cpu_max ∨
        ∃ f, cpuObs t = some f ∧ st.cpu_max < f ∧ (update_ui_calibrate st t).cpu_max = f) := by
  refine ⟨foldl_calibrate_gpu ts _, foldl_calibrate_cpu ts _, ?_, ?_, ?_⟩
  · intro st t
    constructor
    · rw [gpu_step_eq]; exact le_max_left _ _
    · rw [cpu_step_eq]; exact le_max_left _ _
  · intro st t
    rcases h : gpuObs t with _ | f
    · left; rw [gpu_step_eq, h]; simp
    · rcases le_or_lt f st.gpu_max with hle | hlt
      · left; rw [gpu_step_eq, h]; simp; omega
      · right; exact ⟨f, rfl, hlt, by rw [gpu_step_eq, h]; simp; omega⟩
  · intro st t
    rcases h : cpuObs t with _ | f
    · left; rw [cpu_step_eq, h]; simp
    · rcases le_or_lt f st.cpu_max with hle | hlt
      · left; rw [cpu_step_eq, h]; simp; omega
      · right; exact ⟨f, rfl, hlt, by rw [cpu_step_eq, h]; simp; omega⟩

/-- C10: every snapshot returned by `read_sensors` has its CPU-load and
RAM-usage fields populated: the hardware scan's value when present, the
OS-aggregate psutil counter otherwise, in both the backend and the
degraded (no-backend) paths. -/
theorem read_sensors_cpu_ram_populated (env : OsEnv) (comp : Computer) (c : Option Computer) :
    (read_sensors env (some comp)).cpu_load = some ((hwScan comp).cpu_load.getD env.cpu_percent) ∧
    (read_sensors env (some comp)).ram_pct = some ((hwScan comp).ram_pct.getD env.ram_percent) ∧
    (read_sensors env none).cpu_load = some env.cpu_percent ∧
    (read_sensors env none).ram_pct = some env.ram_percent ∧
    (read_sensors env c).cpu_load.isSome = true ∧
    (read_sensors env c).ram_pct.isSome = true := by
  have key : ∀ cp : Computer,
      (read_sensors env (some cp)).cpu_load = some ((hwScan cp).cpu_load.getD env.cpu_percent) ∧
      (read_sensors env (some cp)).ram_pct = some ((hwScan cp).ram_pct.getD env.ram_percent) := by
    intro cp
    simp only [read_sensors]
    rcases hcl : (hwScan cp).cpu_load with _ | v
    · rcases hrp : (hwScan cp).ram_pct with _ | w
      · simp [hcl, hrp]
      · simp [hcl, hrp]
    · rcases hrp : (hwScan cp).ram_pct with _ | w
      · simp [hcl, hrp]
      · simp [hcl, hrp]
  refine ⟨(key comp).1, (key comp).2, rfl, rfl, ?_, ?_⟩
  · cases c with
    | none => rfl
    | some cp => rw [(key cp).1]; rfl
  · cases c with
    | none => rfl
    | some cp => rw [(key cp).2]; rfl

/-- `countClose` distributes over list append. -/
theorem countClose_append (a b : List SEvt) :
    countClose (a ++ b) = countClose a + countClose b := by
  induction a with
  | nil => simp [countClose]
  | cons e es ih =>
    cases e <;> simp [countClose, ih] <;> omega

/-- `countReinit` distributes over list append. -/
theorem countReinit_append (a b : List SEvt) :
    countReinit (a ++ b) = countReinit a + countReinit b := by
  induction a with
  | nil => simp [countReinit]
  | cons e es ih =>
    cases e <;> simp [countReinit, ih] <;> omega

/-- A successful read resets the consecutive-failure counter. -/
theorem sensor_iter_ok_counter (st : LoopSt) (i : IterIn)
    (h : i.outcome = ReadOut.okR) : (sensor_iter st i).counter = 0 := by
  simp [sensor_iter, h]

/-- One failing iteration with the handle absent: no close, no reinit, the
handle stays absent, and an error marker is published. -/
theorem sensor_iter_none (st : LoopSt) (i : IterIn) (h : st.computer = none) :
    (sensor_iter st i).computer = none ∧
    countClose (sensor_iter st i).events = countClose st.events ∧
    countReinit (sensor_iter st i).events = countReinit st.events ∧
    ((sensor_iter st i).published = st.published ++ [PubVal.dataV (read_sensors i.env none)] ∨
      ∃ msg, (sensor_iter st i).published = st.published ++ [PubVal.errV msg]) := by
  cases ho : i.outcome with
  | okR =>
    refine ⟨by simp [sensor_iter, ho, h], ?_, ?_, Or.inl (by simp [sensor_iter, ho, h])⟩
    · simp [sensor_iter, ho, countClose_append, countClose]
    · simp [sensor_iter, ho, countReinit_append, countReinit]
  | raiseR msg =>
    refine ⟨?_, ?_, ?_, Or.inr ⟨msg, ?_⟩⟩
    · simp [sensor_iter, ho, h]
    · simp [sensor_iter, ho, h, countClose_append, countClose]
    · simp [sensor_iter, ho, h, countReinit_append, countReinit]
    · simp [sensor_iter, ho, h]

/-- Run invariant in degraded mode (no backend handle from the start). -/
theorem sensor_run_none (is : List IterIn) :
    ∀ st : LoopSt, st.computer = none →
      (sensor_run st is).computer = none ∧
      countClose (sensor_run st is).events = countClose st.events ∧
      countReinit (sensor_run st is).events = countReinit st.events ∧
      (∀ p ∈ (sensor_run st is).published, p ∈ st.published ∨
        (∃ e : OsEnv, p = PubVal.dataV (read_sensors e none)) ∨
        (∃ msg, p = PubVal.errV msg)) := by
  induction is with
  | nil => intro st h; exact ⟨h, rfl, rfl, fun p hp => Or.inl hp⟩
  | cons i is ih =>
    intro st h
    have hstep := sensor_iter_none st i h
    have hrun := ih (sensor_iter st i) hstep.1
    have hu : sensor_run st (i :: is) = sensor_run (sensor_iter st i) is := rfl
    rw [hu]
    refine ⟨hrun.1, ?_, ?_, ?_⟩
    · rw [hrun.2.1, hstep.2.1]
    · rw [hrun.2.2.1, hstep.2.2.1]
    · intro p hp
      rcases hrun.2.2.2 p hp with hmem | hrest
      · rcases hstep.2.2.2 with hpub | ⟨msg, hpub⟩
        · rw [hpub] at hmem
          rcases List.mem_append.mp hmem with h1 | h1
          · exact Or.inl h1
          · exact Or.inr (Or.inl ⟨i.env, by simpa using h1⟩)
        · rw [hpub] at hmem
          rcases List.mem_append.mp hmem with h1 | h1
          · exact Or.inl h1
          · exact Or.inr (Or.inr ⟨msg, by simpa using h1⟩)
      · exact Or.inr hrest

/-- C2: with a non-null backend handle, the third consecutive read failure
closes and reinitializes the backend exactly once, inside one section of
the mutex guarding the handle, installs the reinitialization result
whatever it is, and resets the failure counter to 0; a successful read at
any point also resets the counter to 0. -/
theorem reinit_after_three_failures (m : Nat) (comp : Computer) (i1 i2 i3 : IterIn)
    (h1 : isFail i1.outcome = true) (h2 : isFail i2.outcome = true)
    (h3 : isFail i3.outcome = true) :
    countClose (sensor_run ⟨m, some comp, 0, [], []⟩ [i1, i2, i3]).events = 1 ∧
    countReinit (sensor_run ⟨m, some comp, 0, [], []⟩ [i1, i2, i3]).events = 1 ∧
    (∃ pre post, (sensor_run ⟨m, some comp, 0, [], []⟩ [i1, i2, i3]).events =
        pre ++ [SEvt.acqE m, SEvt.closeE, SEvt.reinitE, SEvt.relE m] ++ post) ∧
    (sensor_run ⟨m, some comp, 0, [], []⟩ [i1, i2, i3]).counter = 0 ∧
    (sensor_run ⟨m, some comp, 0, [], []⟩ [i1, i2, i3]).computer = i3.reinitResult ∧
    (∀ (st : LoopSt) (i : IterIn), i.outcome = ReadOut.okR →
        (sensor_iter st i).counter = 0) := by
  rcases o1 : i1.outcome with _ | s1
  · rw [o1] at h1; simp [isFail] at h1
  rcases o2 : i2.outcome with _ | s2
  · rw [o2] at h2; simp [isFail] at h2
  rcases o3 : i3.outcome with _ | s3
  · rw [o3] at h3; simp [isFail] at h3
  have e1 : sensor_iter ⟨m, some comp, 0, [], []⟩ i1 =
      ⟨m, some comp, 1, [PubVal.errV s1],
        [SEvt.acqE m, SEvt.relE m, SEvt.acqE m, SEvt.relE m]⟩ := by
    simp [sensor_iter, o1]
  have e2 : sensor_iter ⟨m, some comp, 1, [PubVal.errV s1],
      [SEvt.acqE m, SEvt.relE m, SEvt.acqE m, SEvt.relE m]⟩ i2 =
      ⟨m, some comp, 2, [PubVal.errV s1, PubVal.errV s2],
        [SEvt.acqE m, SEvt.relE m, SEvt.acqE m, SEvt.relE m,
         SEvt.acqE m, SEvt.relE m, SEvt.acqE m, SEvt.relE m]⟩ := by
    simp [sensor_iter, o2]
  have e3 : sensor_iter ⟨m, some comp, 2, [PubVal.errV s1, PubVal.errV s2],
      [SEvt.acqE m, SEvt.relE m, SEvt.acqE m, SEvt.relE m,
       SEvt.acqE m, SEvt.relE m, SEvt.acqE m, SEvt.relE m]⟩ i3 =
      ⟨m, i3.reinitResult, 0,
        [PubVal.errV s1, PubVal.errV s2, PubVal.errV s3],
        [SEvt.acqE m, SEvt.relE m, SEvt.acqE m, SEvt.relE m,
         SEvt.acqE m, SEvt.relE m, SEvt.acqE m, SEvt.relE m,
         SEvt.acqE m, SEvt.relE m, SEvt.acqE m, SEvt.relE m,
         SEvt.acqE m, SEvt.closeE, SEvt.reinitE, SEvt.relE m]⟩ := by
    simp [sensor_iter, o3]
  have erun : sensor_run ⟨m, some comp, 0, [], []⟩ [i1, i2, i3] =
      ⟨m, i3.reinitResult, 0,
        [PubVal.errV s1, PubVal.errV s2, PubVal.errV s3],
        [SEvt.acqE m, SEvt.relE m, SEvt.acqE m, SEvt.relE m,
         SEvt.acqE m, SEvt.relE m, SEvt.acqE m, SEvt.relE m,
         SEvt.acqE m, SEvt.relE m, SEvt.acqE m, SEvt.relE m,
         SEvt.acqE m, SEvt.closeE, SEvt.reinitE, SEvt.relE m]⟩ := by
    show sensor_iter (sensor_iter (sensor_iter ⟨m, some comp, 0, [], []⟩ i1) i2) i3 = _
    rw [e1, e2, e3]
  refine ⟨?_, ?_, ?_, ?_, ?_, fun st i h => sensor_iter_ok_counter st i h⟩
  · rw [erun]; rfl
  · rw [erun]; rfl
  · refine ⟨[SEvt.acqE m, SEvt.relE m, SEvt.acqE m, SEvt.relE m,
      SEvt.acqE m, SEvt.relE m, SEvt.acqE m, SEvt.relE m,
      SEvt.acqE m, SEvt.relE m, SEvt.acqE m, SEvt.relE m], [], ?_⟩
    rw [erun]
    rfl
  · rw [erun]
  · rw [erun]

/-- Witness for C2: a concrete three-failure run with an empty backend
device tree, a failed reinitialization, and remaining hypotheses checked. -/
theorem reinit_after_three_failures_witness :
    isFail (IterIn.mk ⟨10, 20⟩ (ReadOut.raiseR "e1") none).outcome = true ∧
    isFail (IterIn.mk ⟨10, 20⟩ (ReadOut.raiseR "e2") none).outcome = true ∧
    isFail (IterIn.mk ⟨10, 20⟩ (ReadOut.raiseR "e3") none).outcome = true ∧
    (countClose (sensor_run ⟨7, some ⟨[]⟩, 0, [], []⟩
        [IterIn.mk ⟨10, 20⟩ (ReadOut.raiseR "e1") none,
         IterIn.mk ⟨10, 20⟩ (ReadOut.raiseR "e2") none,
         IterIn.mk ⟨10, 20⟩ (ReadOut.raiseR "e3") none]).events = 1 ∧
      countReinit (sensor_run ⟨7, some ⟨[]⟩, 0, [], []⟩
        [IterIn.mk ⟨10, 20⟩ (ReadOut.raiseR "e1") none,
         IterIn.mk ⟨10, 20⟩ (ReadOut.raiseR "e2") none,
         IterIn.mk ⟨10, 20⟩ (ReadOut.raiseR "e3") none]).events = 1 ∧
      (∃ pre post, (sensor_run ⟨7, some ⟨[]⟩, 0, [], []⟩
          [IterIn.mk ⟨10, 20⟩ (ReadOut.raiseR "e1") none,
           IterIn.mk ⟨10, 20⟩ (ReadOut.raiseR "e2") none,
           IterIn.mk ⟨10, 20⟩ (ReadOut.raiseR "e3") none]).events =
          pre ++ [SEvt.acqE 7, SEvt.closeE, SEvt.reinitE, SEvt.relE 7] ++ post) ∧
      (sensor_run ⟨7, some ⟨[]⟩, 0, [], []⟩
        [IterIn.mk ⟨10, 20⟩ (ReadOut.raiseR "e1") none,
         IterIn.mk ⟨10, 20⟩ (ReadOut.raiseR "e2") none,
         IterIn.mk ⟨10, 20⟩ (ReadOut.raiseR "e3") none]).counter = 0 ∧
      (sensor_run ⟨7, some ⟨[]⟩, 0, [], []⟩
        [IterIn.mk ⟨10, 20⟩ (ReadOut.raiseR "e1") none,
         IterIn.mk ⟨10, 20⟩ (ReadOut.raiseR "e2") none,
         IterIn.mk ⟨10, 20⟩ (ReadOut.raiseR "e3") none]).computer =
        (IterIn.mk ⟨10, 20⟩ (ReadOut.raiseR "e3") none).reinitResult ∧
      (∀ (st : LoopSt) (i : IterIn), i.outcome = ReadOut.okR →
          (sensor_iter st i).counter = 0)) :=
  ⟨rfl, rfl, rfl,
    reinit_after_three_failures 7 ⟨[]⟩ _ _ _ rfl rfl rfl⟩


/-- C8: with a null backend handle, every successful poll publishes the
degraded snapshot in which only the OS-aggregate CPU-load and RAM fields
are populated and every hardware field is absent, and no close or
reinitialization ever happens, however many failures occur. -/
theorem degraded_mode_no_reinit (env : OsEnv) (m : Nat) (is : List IterIn) :
    read_sensors env none =
      { cpu_temp := none, cpu_load := some env.cpu_percent, gpu_temp := none,
        gpu_load := none, cpu_fan := none, cpu_fan_pct := none, gpu_fan := none,
        gpu_fan_pct := none, gpu_vram_pct := none, ram_pct := some env.ram_percent,
        disks := [] } ∧
    (sensor_run ⟨m, none, 0, [], []⟩ is).computer = none ∧
    countClose (sensor_run ⟨m, none, 0, [], []⟩ is).events = 0 ∧
    countReinit (sensor_run ⟨m, none, 0, [], []⟩ is).events = 0 ∧
    ∀ p ∈ (sensor_run ⟨m, none, 0, [], []⟩ is).published,
      (∃ e : OsEnv, p = PubVal.dataV
        { cpu_temp := none, cpu_load := some e.cpu_percent, gpu_temp := none,
          gpu_load := none, cpu_fan := none, cpu_fan_pct := none, gpu_fan := none,
          gpu_fan_pct := none, gpu_vram_pct := none, ram_pct := some e.ram_percent,
          disks := [] }) ∨
      ∃ msg, p = PubVal.errV msg := by
  have hread : ∀ e : OsEnv, read_sensors e none =
      { cpu_temp := none, cpu_load := some e.cpu_percent, gpu_temp := none,
        gpu_load := none, cpu_fan := none, cpu_fan_pct := none, gpu_fan := none,
        gpu_fan_pct := none, gpu_vram_pct := none, ram_pct := some e.ram_percent,
        disks := [] } := by
    intro e
    simp [read_sensors, emptySnap]
  have hrun := sensor_run_none is ⟨m, none, 0, [], []⟩ rfl
  refine ⟨hread env, hrun.1, by rw [hrun.2.1]; rfl, by rw [hrun.2.2.1]; rfl, ?_⟩
  intro p hp
  rcases hrun.2.2.2 p hp with hmem | hdeg | herr
  · simp at hmem
  · rcases hdeg with ⟨e, he⟩
    exact Or.inl ⟨e, by rw [he, hread e]⟩
  · exact Or.inr herr

/-- Witness for C8: a concrete degraded run with one success and four
consecutive failures, none of which closes or reinitializes. -/
theorem degraded_mode_no_reinit_witness :
    read_sensors ⟨35, 60⟩ none =
      { cpu_temp := none, cpu_load := some (35 : Int), gpu_temp := none,
        gpu_load := none, cpu_fan := none, cpu_fan_pct := none, gpu_fan := none,
        gpu_fan_pct := none, gpu_vram_pct := none, ram_pct := some (60 : Int),
        disks := [] } ∧
    (sensor_run ⟨3, none, 0, [], []⟩
        [IterIn.mk ⟨35, 60⟩ ReadOut.okR none,
         IterIn.mk ⟨35, 60⟩ (ReadOut.raiseR "a") none,
         IterIn.mk ⟨35, 60⟩ (ReadOut.raiseR "b") none,
         IterIn.mk ⟨35, 60⟩ (ReadOut.raiseR "c") none,
         IterIn.mk ⟨35, 60⟩ (ReadOut.raiseR "d") none]).computer = none ∧
    countClose (sensor_run ⟨3, none, 0, [], []⟩
        [IterIn.mk ⟨35, 60⟩ ReadOut.okR none,
         IterIn.mk ⟨35, 60⟩ (ReadOut.raiseR "a") none,
         IterIn.mk ⟨35, 60⟩ (ReadOut.raiseR "b") none,
         IterIn.mk ⟨35, 60⟩ (ReadOut.raiseR "c") none,
         IterIn.mk ⟨35, 60⟩ (ReadOut.raiseR "d") none]).events = 0 ∧
    countReinit (sensor_run ⟨3, none, 0, [], []⟩
        [IterIn.mk ⟨35, 60⟩ ReadOut.okR none,
         IterIn.mk ⟨35, 60⟩ (ReadOut.raiseR "a") none,
         IterIn.mk ⟨35, 60⟩ (ReadOut.raiseR "b") none,
         IterIn.mk ⟨35, 60⟩ (ReadOut.raiseR "c") none,
         IterIn.mk ⟨35, 60⟩ (ReadOut.raiseR "d") none]).events = 0 ∧
    ∀ p ∈ (sensor_run ⟨3, none, 0, [], []⟩
        [IterIn.mk ⟨35, 60⟩ ReadOut.okR none,
         IterIn.mk ⟨35, 60⟩ (ReadOut.raiseR "a") none,
         IterIn.mk ⟨35, 60⟩ (ReadOut.raiseR "b") none,
         IterIn.mk ⟨35, 60⟩ (ReadOut.raiseR "c") none,
         IterIn.mk ⟨35, 60⟩ (ReadOut.raiseR "d") none]).published,
      (∃ e : OsEnv, p = PubVal.dataV
        { cpu_temp := none, cpu_load := some e.cpu_percent, gpu_temp := none,
          gpu_load := none, cpu_fan := none, cpu_fan_pct := none, gpu_fan := none,
          gpu_fan_pct := none, gpu_vram_pct := none, ram_pct := some e.ram_percent,
          disks := [] }) ∨
      ∃ msg, p = PubVal.errV msg :=
  degraded_mode_no_reinit ⟨35, 60⟩ 3
    [IterIn.mk ⟨35, 60⟩ ReadOut.okR none,
     IterIn.mk ⟨35, 60⟩ (ReadOut.raiseR "a") none,
     IterIn.mk ⟨35, 60⟩ (ReadOut.raiseR "b") none,
     IterIn.mk ⟨35, 60⟩ (ReadOut.raiseR "c") none,
     IterIn.mk ⟨35, 60⟩ (ReadOut.raiseR "d") none]


/-- C1 counterexample: with topmost off and the hit test reporting the
desktop NOT visible (an application window at the remembered point), the
peek entry point does start the slide-in and does change the state, contrary
to the claim that it never transitions when the desktop is not visible. -/
theorem peek_show_starts_when_desktop_not_visible :
    is_desktop_visible none
      ⟨fun _ => 42, fun h => h, fun _ => "Chrome_WidgetWin_1", 100, 100, 0, 1920, 200⟩ = false ∧
    (peek_show ⟨false, false, false, true, none, 100, 100⟩
      ⟨fun _ => 42, fun h => h, fun _ => "Chrome_WidgetWin_1", 100, 100, 0, 1920, 200⟩).1 =
      ⟨false, true, false, false, some (100, 100), 100, 100⟩ ∧
    (peek_show ⟨false, false, false, true, none, 100, 100⟩
      ⟨fun _ => 42, fun h => h, fun _ => "Chrome_WidgetWin_1", 100, 100, 0, 1920, 200⟩).2 =
      some ⟨1920, 1720, 100, -20⟩ ∧
    (⟨false, false, false, true, none, 100, 100⟩ : PeekSt).peek_animating = false ∧
    (⟨false, false, false, true, none, 100, 100⟩ : PeekSt).topmost = false := by
  refine ⟨?_, ?_, ?_, rfl, rfl⟩ <;> rfl

/-- C1 amended: the peek entry point never starts the slide-in and leaves
the whole state unchanged when always-on-top mode is active or when the
desktop IS visible at the remembered position; the slide-in can only start
when an application window covers that point. -/
theorem peek_show_no_start_when_topmost_or_desktop_visible (st : PeekSt) (env : WinEnv)
    (h : st.topmost = true ∨ is_desktop_visible st.saved_pos env = true) :
    peek_show st env = (st, none) := by
  rcases h with h | h
  · simp [peek_show, h]
  · by_cases hg : (st.peek_visible || st.peek_animating || st.topmost) = true
    · simp [peek_show, hg]
    · simp only [Bool.or_eq_true, not_or, Bool.not_eq_true] at hg
      simp [peek_show, hg.1.1, hg.1.2, hg.2, h]

/-- Witness for C1 (amended): a topmost state is left unchanged. -/
theorem peek_show_no_start_witness :
    ((⟨false, false, true, false, none, 100, 100⟩ : PeekSt).topmost = true ∨
      is_desktop_visible (⟨false, false, true, false, none, 100, 100⟩ : PeekSt).saved_pos
        ⟨fun _ => 0, fun h => h, fun _ => "", 0, 0, 0, 1920, 200⟩ = true) ∧
    peek_show ⟨false, false, true, false, none, 100, 100⟩
        ⟨fun _ => 0, fun h => h, fun _ => "", 0, 0, 0, 1920, 200⟩ =
      (⟨false, false, true, false, none, 100, 100⟩, none) :=
  ⟨Or.inl rfl,
    peek_show_no_start_when_topmost_or_desktop_visible _ _ (Or.inl rfl)⟩

/-- C5 counterexample: dragging mid-peek then releasing.  The drag motion
itself redirects the write to the remembered slot (config still (100, 50)),
but the release commits the dragged on-screen position (805, 50) into the
persisted config and saves it, contrary to the claim. -/
theorem end_drag_mid_peek_commits_position :
    on_drag ⟨800, 50, 0, 0, true, false, some (100, 50), 100, 50⟩ 5 0 =
      ⟨805, 50, 0, 0, true, false, some (805, 50), 100, 50⟩ ∧
    (end_drag ⟨805, 50, 0, 0, true, false, some (805, 50), 100, 50⟩).1.cfg_x = 805 ∧
    (end_drag ⟨805, 50, 0, 0, true, false, some (805, 50), 100, 50⟩).1.cfg_y = 50 ∧
    (end_drag ⟨805, 50, 0, 0, true, false, some (805, 50), 100, 50⟩).2 = (805, 50) ∧
    (⟨805, 50, 0, 0, true, false, some (805, 50), 100, 50⟩ : DragSt).win_x = 805 ∧
    (⟨805, 50, 0, 0, true, false, some (805, 50), 100, 50⟩ : DragSt).cfg_x = 100 := by
  refine ⟨?_, rfl, rfl, rfl, rfl, rfl⟩
  rfl

/-- C5 amended: while peeking or animating, drag motion writes only the
remembered slot and leaves the config untouched; on release, a set
remembered slot (including a mid-peek dragged position) is committed to
the config and saved, while with an empty slot the release saves the
config unchanged. -/
theorem drag_mid_peek_semantics (st : DragSt) (ex ey : Int)
    (hp : st.peek_visible = true ∨ st.peek_animating = true) :
    ((on_drag st ex ey).cfg_x = st.cfg_x ∧
     (on_drag st ex ey).cfg_y = st.cfg_y ∧
     (on_drag st ex ey).saved_pos =
        some (st.win_x + ex - st.drag_x, st.win_y + ey - st.drag_y)) ∧
    (∀ (t : DragSt) (p : Int × Int), t.saved_pos = some p →
        (end_drag t).1.cfg_x = p.1 ∧ (end_drag t).1.cfg_y = p.2 ∧
        (end_drag t).2 = p) ∧
    (∀ t : DragSt, t.saved_pos = none →
        (end_drag t).1 = t ∧ (end_drag t).2 = (t.cfg_x, t.cfg_y)) := by
  refine ⟨?_, ?_, ?_⟩
  · have hcond : ((st.peek_visible || st.peek_animating) = true) := by
      rcases hp with h | h <;> simp [h]
    refine ⟨?_, ?_, ?_⟩ <;> simp [on_drag, hcond]
  · intro t p hp2
    refine ⟨?_, ?_, ?_⟩ <;> simp [end_drag, hp2]
  · intro t ht
    refine ⟨?_, ?_⟩ <;> simp [end_drag, ht]

/-- Witness for C5 (amended): the mid-peek drag of the counterexample
state redirects its write to the remembered slot. -/
theorem drag_mid_peek_semantics_witness :
    ((⟨800, 50, 0, 0, true, false, some (100, 50), 100, 50⟩ : DragSt).peek_visible = true ∨
      (⟨800, 50, 0, 0, true, false, some (100, 50), 100, 50⟩ : DragSt).peek_animating = true) ∧
    (((on_drag ⟨800, 50, 0, 0, true, false, some (100, 50), 100, 50⟩ 5 0).cfg_x =
        (⟨800, 50, 0, 0, true, false, some (100, 50), 100, 50⟩ : DragSt).cfg_x ∧
      (on_drag ⟨800, 50, 0, 0, true, false, some (100, 50), 100, 50⟩ 5 0).cfg_y =
        (⟨800, 50, 0, 0, true, false, some (100, 50), 100, 50⟩ : DragSt).cfg_y ∧
      (on_drag ⟨800, 50, 0, 0, true, false, some (100, 50), 100, 50⟩ 5 0).saved_pos =
        some ((⟨800, 50, 0, 0, true, false, some (100, 50), 100, 50⟩ : DragSt).win_x + 5 -
            (⟨800, 50, 0, 0, true, false, some (100, 50), 100, 50⟩ : DragSt).drag_x,
          (⟨800, 50, 0, 0, true, false, some (100, 50), 100, 50⟩ : DragSt).win_y + 0 -
            (⟨800, 50, 0, 0, true, false, some (100, 50), 100, 50⟩ : DragSt).drag_y)) ∧
    (∀ (t : DragSt) (p : Int × Int), t.saved_pos = some p →
        (end_drag t).1.cfg_x = p.1 ∧ (end_drag t).1.cfg_y = p.2 ∧
        (end_drag t).2 = p) ∧
    (∀ t : DragSt, t.saved_pos = none →
        (end_drag t).1 = t ∧ (end_drag t).2 = (t.cfg_x, t.cfg_y))) :=
  ⟨Or.inl rfl,
    drag_mid_peek_semantics ⟨800, 50, 0, 0, true, false, some (100, 50), 100, 50⟩ 5 0
      (Or.inl rfl)⟩

/-- C6 counterexample: the virtual width shrinks from 3000 to 1000, below
the stored x position 2000.  The poll relocates the trigger strip to the
new right edge but leaves the stored position at (2000, 100) instead of
resetting it to (50, 50), contrary to the claim. -/
theorem poll_screen_change_keeps_position :
    poll_screen_change ⟨⟨0, 0, 3000, 1200⟩, ⟨2994, 0, 6, 1200⟩, 2000, 100⟩ ⟨0, 0, 1000, 1200⟩ =
      ⟨⟨0, 0, 1000, 1200⟩, ⟨994, 0, 6, 1200⟩, 2000, 100⟩ ∧
    (⟨0, 0, 1000, 1200⟩ : Geom).w < 2000 ∧
    (poll_screen_change ⟨⟨0, 0, 3000, 1200⟩, ⟨2994, 0, 6, 1200⟩, 2000, 100⟩
        ⟨0, 0, 1000, 1200⟩).cfg_x = 2000 ∧
    (2000 : Int) ≠ 50 := by
  refine ⟨?_, by decide, ?_, by decide⟩ <;> rfl

/-- C6 amended: a geometry-change poll relocates the trigger strip to the
new right edge (full virtual height, width 6) and never modifies the
stored position; the snap of an out-of-bounds stored position to (50, 50)
happens only in the startup validation. -/
theorem poll_screen_change_trigger_only (st : ScreenSt) (cur : Geom)
    (hch : cur ≠ st.last) :
    (poll_screen_change st cur).cfg_x = st.cfg_x ∧
    (poll_screen_change st cur).cfg_y = st.cfg_y ∧
    (poll_screen_change st cur).trigger = update_trigger_geometry cur ∧
    (poll_screen_change st cur).last = cur ∧
    (∀ (g : Geom) (cx cy : Int),
        (cx < g.x ∨ cx ≥ g.x + g.w ∨ cy < g.y ∨ cy ≥ g.y + g.h) →
        validate_start_pos g cx cy = (50, 50)) ∧
    (∀ (st2 : ScreenSt) (cur2 : Geom),
        (poll_screen_change st2 cur2).cfg_x = st2.cfg_x ∧
        (poll_screen_change st2 cur2).cfg_y = st2.cfg_y) := by
  refine ⟨?_, ?_, ?_, ?_, ?_, ?_⟩
  · simp [poll_screen_change, hch]
  · simp [poll_screen_change, hch]
  · simp [poll_screen_change, hch]
  · simp [poll_screen_change, hch]
  · intro g cx cy hout
    simp [validate_start_pos, hout]
  · intro st2 cur2
    by_cases h2 : cur2 ≠ st2.last
    · constructor <;> simp [poll_screen_change, h2]
    · constructor <;> simp [poll_screen_change, h2]

/-- Witness for C6 (amended): the shrink scenario of the counterexample. -/
theorem poll_screen_change_trigger_only_witness :
    ((⟨0, 0, 1000, 1200⟩ : Geom) ≠
      (⟨⟨0, 0, 3000, 1200⟩, ⟨2994, 0, 6, 1200⟩, 2000, 100⟩ : ScreenSt).last) ∧
    ((poll_screen_change ⟨⟨0, 0, 3000, 1200⟩, ⟨2994, 0, 6, 1200⟩, 2000, 100⟩
        ⟨0, 0, 1000, 1200⟩).cfg_x =
      (⟨⟨0, 0, 3000, 1200⟩, ⟨2994, 0, 6, 1200⟩, 2000, 100⟩ : ScreenSt).cfg_x ∧
    (poll_screen_change ⟨⟨0, 0, 3000, 1200⟩, ⟨2994, 0, 6, 1200⟩, 2000, 100⟩
        ⟨0, 0, 1000, 1200⟩).cfg_y =
      (⟨⟨0, 0, 3000, 1200⟩, ⟨2994, 0, 6, 1200⟩, 2000, 100⟩ : ScreenSt).cfg_y ∧
    (poll_screen_change ⟨⟨0, 0, 3000, 1200⟩, ⟨2994, 0, 6, 1200⟩, 2000, 100⟩
        ⟨0, 0, 1000, 1200⟩).trigger = update_trigger_geometry ⟨0, 0, 1000, 1200⟩ ∧
    (poll_screen_change ⟨⟨0, 0, 3000, 1200⟩, ⟨2994, 0, 6, 1200⟩, 2000, 100⟩
        ⟨0, 0, 1000, 1200⟩).last = ⟨0, 0, 1000, 1200⟩ ∧
    (∀ (g : Geom) (cx cy : Int),
        (cx < g.x ∨ cx ≥ g.x + g.w ∨ cy < g.y ∨ cy ≥ g.y + g.h) →
        validate_start_pos g cx cy = (50, 50)) ∧
    (∀ (st2 : ScreenSt) (cur2 : Geom),
        (poll_screen_change st2 cur2).cfg_x = st2.cfg_x ∧
        (poll_screen_change st2 cur2).cfg_y = st2.cfg_y)) :=
  ⟨by decide,
    poll_screen_change_trigger_only ⟨⟨0, 0, 3000, 1200⟩, ⟨2994, 0, 6, 1200⟩, 2000, 100⟩
      ⟨0, 0, 1000, 1200⟩ (by decide)⟩


/-- Deep-copying the disk objects preserves their structure. -/
theorem copyDisks_strip (ds : List DiskObj) :
    ∀ n : Nat, (copyDisks n ds).map stripDisk = ds.map stripDisk := by
  induction ds with
  | nil => intro n; rfl
  | cons d ds ih =>
    intro n
    simp [copyDisks, stripDisk, ih (n + 1)]

/-- Every identity allocated by `copyDisks n` is at least `n`. -/
theorem copyDisks_oid_ge (ds : List DiskObj) :
    ∀ (n : Nat) (i : Nat), i ∈ (copyDisks n ds).map (fun d => d.oid) → n ≤ i := by
  induction ds with
  | nil => intro n i h; simp [copyDisks] at h
  | cons d ds ih =>
    intro n i h
    simp only [copyDisks, List.map_cons, List.mem_cons] at h
    rcases h with h | h
    · omega
    · have := ih (n + 1) i (by simpa using h)
      omega

/-- A deep copy has the same identity-erased structure. -/
theorem stripVal_deepcopy (n : Nat) (v : StoredVal) :
    stripVal (deepcopy n v) = stripVal v := by
  cases v with
  | snapO s => simp [deepcopy, stripVal, stripSnap, copyDisks_strip]
  | errO o m => rfl

/-- Every identity of a deep copy starting at `n` is at least `n`. -/
theorem ids_deepcopy_ge (n : Nat) (v : StoredVal) :
    ∀ i ∈ idsVal (deepcopy n v), n ≤ i := by
  cases v with
  | snapO s =>
    intro i h
    simp only [deepcopy, idsVal, List.mem_cons] at h
    rcases h with h | h | h
    · omega
    · omega
    · have := copyDisks_oid_ge s.disks (n + 2) i (by simpa using h)
      omega
  | errO o m =>
    intro i h
    simp only [deepcopy, idsVal, List.mem_singleton] at h
    omega

/-- The root of a deep copy carries the first fresh identity. -/
theorem rootOid_deepcopy (n : Nat) (v : StoredVal) :
    rootOid (deepcopy n v) = n := by
  cases v <;> rfl

/-- The root identity is among a value's identities. -/
theorem rootOid_mem_ids (v : StoredVal) : rootOid v ∈ idsVal v := by
  cases v <;> simp [rootOid, idsVal]

/-- A field update guarded by an identity no disk carries is the identity
map on the disk list. -/
theorem map_untouched (target : Nat) (f : DiskObj → DiskObj) :
    ∀ ds : List DiskObj, (∀ d ∈ ds, d.oid ≠ target) →
      ds.map (fun d => if d.oid = target then f d else d) = ds := by
  intro ds
  induction ds with
  | nil => intro h; rfl
  | cons d ds ih =>
    intro h
    have hd : d.oid ≠ target := h d (by simp)
    simp only [List.map_cons, if_neg hd]
    rw [ih (fun x hx => h x (by simp [hx]))]

/-- A mutation through an identity the stored value does not contain
leaves the stored value unchanged. -/
theorem applyMut_not_mem (target : Nat) (mu : Mutation) (v : StoredVal)
    (h : target ∉ idsVal v) : applyMut target mu v = v := by
  cases v with
  | errO o m => rfl
  | snapO s =>
    simp only [idsVal, List.mem_cons, not_or] at h
    have hoid : s.oid ≠ target := fun hh => h.1 hh.symm
    have hdisks : s.disks_oid ≠ target := fun hh => h.2.1 hh.symm
    have hds : ∀ d ∈ s.disks, d.oid ≠ target := by
      intro d hd hh
      exact h.2.2 (by simp only [List.mem_map]; exact ⟨d, hd, hh⟩)
    cases mu with
    | mSetTop f val => simp [applyMut, hoid]
    | mSetDiskTemp val => simp [applyMut, map_untouched target _ s.disks hds]
    | mSetDiskUsed val => simp [applyMut, map_untouched target _ s.disks hds]
    | mSetDiskName nm => simp [applyMut, map_untouched target _ s.disks hds]
    | mAppendDisk nd => simp [applyMut, hdisks]

/-- C3: after a publish, a read returns a deep copy-- structurally equal
to the published snapshot, rooted at a different object, sharing no object
identity with the stored value, so that no mutation through the copy can
change the stored value-- and both operations run under the store's one
mutex. -/
theorem store_copy_isolation (st : Store) (v : StoredVal)
    (hb : boundedVal st.next_id v) :
    stripVal (Store.read (Store.publish st v).1).1 = stripVal v ∧
    rootOid (Store.read (Store.publish st v).1).1 ≠ rootOid v ∧
    (Store.read (Store.publish st v).1).2.1.sensor_data = v ∧
    (∀ i ∈ idsVal (Store.read (Store.publish st v).1).1, i ∉ idsVal v) ∧
    (∀ (tgt : Nat) (mu : Mutation), tgt ∈ idsVal (Store.read (Store.publish st v).1).1 →
        applyMut tgt mu (Store.read (Store.publish st v).1).2.1.sensor_data =
          (Store.read (Store.publish st v).1).2.1.sensor_data) ∧
    (Store.publish st v).2 = [LockEvt.acqL st.mutex, LockEvt.relL st.mutex] ∧
    (Store.read (Store.publish st v).1).2.2 = [LockEvt.acqL st.mutex, LockEvt.relL st.mutex] := by
  have hval : (Store.read (Store.publish st v).1).1 = deepcopy st.next_id v := rfl
  have hstore : (Store.read (Store.publish st v).1).2.1.sensor_data = v := rfl
  have hfresh : ∀ i ∈ idsVal (deepcopy st.next_id v), i ∉ idsVal v := by
    intro i hi hmem
    have h1 := ids_deepcopy_ge st.next_id v i hi
    have h2 := hb i hmem
    omega
  refine ⟨?_, ?_, hstore, ?_, ?_, rfl, rfl⟩
  · rw [hval, stripVal_deepcopy]
  · rw [hval, rootOid_deepcopy]
    have h2 := hb (rootOid v) (rootOid_mem_ids v)
    omega
  · rw [hval]; exact hfresh
  · intro tgt mu htgt
    rw [hval] at htgt
    rw [hstore]
    exact applyMut_not_mem tgt mu v (hfresh tgt htgt)

/-- Witness for C3: a one-disk snapshot with identities 1-3 published into
a store whose allocator is at 5 under mutex 0. -/
theorem store_copy_isolation_witness :
    boundedVal (Store.mk 0 (StoredVal.errO 4 "init") 5).next_id
      (StoredVal.snapO ⟨1, 2, some 45, some 12, none, none, none, none, some 900, none,
        none, some 33, [⟨3, "970 EVO", some 40, some 71⟩]⟩) ∧
    (stripVal (Store.read ((Store.mk 0 (StoredVal.errO 4 "init") 5).publish
        (StoredVal.snapO ⟨1, 2, some 45, some 12, none, none, none, none, some 900, none,
          none, some 33, [⟨3, "970 EVO", some 40, some 71⟩]⟩)).1).1 =
      stripVal (StoredVal.snapO ⟨1, 2, some 45, some 12, none, none, none, none, some 900, none,
        none, some 33, [⟨3, "970 EVO", some 40, some 71⟩]⟩) ∧
    rootOid (Store.read ((Store.mk 0 (StoredVal.errO 4 "init") 5).publish
        (StoredVal.snapO ⟨1, 2, some 45, some 12, none, none, none, none, some 900, none,
          none, some 33, [⟨3, "970 EVO", some 40, some 71⟩]⟩)).1).1 ≠
      rootOid (StoredVal.snapO ⟨1, 2, some 45, some 12, none, none, none, none, some 900, none,
        none, some 33, [⟨3, "970 EVO", some 40, some 71⟩]⟩) ∧
    (Store.read ((Store.mk 0 (StoredVal.errO 4 "init") 5).publish
        (StoredVal.snapO ⟨1, 2, some 45, some 12, none, none, none, none, some 900, none,
          none, some 33, [⟨3, "970 EVO", some 40, some 71⟩]⟩)).1).2.1.sensor_data =
      StoredVal.snapO ⟨1, 2, some 45, some 12, none, none, none, none, some 900, none,
        none, some 33, [⟨3, "970 EVO", some 40, some 71⟩]⟩ ∧
    (∀ i ∈ idsVal (Store.read ((Store.mk 0 (StoredVal.errO 4 "init") 5).publish
        (StoredVal.snapO ⟨1, 2, some 45, some 12, none, none, none, none, some 900, none,
          none, some 33, [⟨3, "970 EVO", some 40, some 71⟩]⟩)).1).1,
        i ∉ idsVal (StoredVal.snapO ⟨1, 2, some 45, some 12, none, none, none, none,
          some 900, none, none, some 33, [⟨3, "970 EVO", some 40, some 71⟩]⟩)) ∧
    (∀ (tgt : Nat) (mu : Mutation),
        tgt ∈ idsVal (Store.read ((Store.mk 0 (StoredVal.errO 4 "init") 5).publish
          (StoredVal.snapO ⟨1, 2, some 45, some 12, none, none, none, none, some 900, none,
            none, some 33, [⟨3, "970 EVO", some 40, some 71⟩]⟩)).1).1 →
        applyMut tgt mu (Store.read ((Store.mk 0 (StoredVal.errO 4 "init") 5).publish
          (StoredVal.snapO ⟨1, 2, some 45, some 12, none, none, none, none, some 900, none,
            none, some 33, [⟨3, "970 EVO", some 40, some 71⟩]⟩)).1).2.1.sensor_data =
          (Store.read ((Store.mk 0 (StoredVal.errO 4 "init") 5).publish
            (StoredVal.snapO ⟨1, 2, some 45, some 12, none, none, none, none, some 900, none,
              none, some 33, [⟨3, "970 EVO", some 40, some 71⟩]⟩)).1).2.1.sensor_data) ∧
    ((Store.mk 0 (StoredVal.errO 4 "init") 5).publish
        (StoredVal.snapO ⟨1, 2, some 45, some 12, none, none, none, none, some 900, none,
          none, some 33, [⟨3, "970 EVO", some 40, some 71⟩]⟩)).2 =
      [LockEvt.acqL 0, LockEvt.relL 0] ∧
    (Store.read ((Store.mk 0 (StoredVal.errO 4 "init") 5).publish
        (StoredVal.snapO ⟨1, 2, some 45, some 12, none, none, none, none, some 900, none,
          none, some 33, [⟨3, "970 EVO", some 40, some 71⟩]⟩)).1).2.2 =
      [LockEvt.acqL 0, LockEvt.relL 0]) :=
  ⟨by decide,
    store_copy_isolation (Store.mk 0 (StoredVal.errO 4 "init") 5)
      (StoredVal.snapO ⟨1, 2, some 45, some 12, none, none, none, none, some 900, none,
        none, some 33, [⟨3, "970 EVO", some 40, some 71⟩]⟩) (by decide)⟩


/-- C7 counterexample: JSON `true` is not an integer, so a file whose `x`
field holds `true` has a malformed `x`; but Python's `isinstance(True,
int)` succeeds and `int(True)` is 1, so loading yields x = 1 instead of
the documented default 50, with every other field kept. -/
theorem load_config_coerces_bool :
    load_config (some (JDoc.obj [("x", JVal.jbool true), ("y", JVal.jint 77),
      ("peek_enabled", JVal.jbool false), ("alerts_enabled", JVal.jbool true),
      ("gpu_fan_max_rpm", JVal.jint 3000), ("cpu_fan_max_rpm", JVal.jint 1500)])) =
      { x := 1, y := 77, peek_enabled := false, alerts_enabled := true,
        gpu_fan_max_rpm := 3000, cpu_fan_max_rpm := 1500 } ∧
    (1 : Int) ≠ 50 := by
  constructor
  · rfl
  · decide

/-- C7 amended: saving then loading a valid config is the identity on all
six fields; a missing field loads as its documented default with every
other field kept; a field whose value the validator rejects loads as its
default with every other field kept.  (Values Python treats as numeric--
booleans-- are coerced by `int()` in the integer fields, not defaulted.) -/
theorem config_roundtrip_and_defaults (c : Config)
    (hg : 0 < c.gpu_fan_max_rpm) (hc : 0 < c.cpu_fan_max_rpm) :
    load_config (some (save_config c)) = c ∧
    load_config (some (JDoc.obj (withoutKey "x" (cfgFields c)))) = { c with x := 50 } ∧
    load_config (some (JDoc.obj (withoutKey "y" (cfgFields c)))) = { c with y := 50 } ∧
    load_config (some (JDoc.obj (withoutKey "peek_enabled" (cfgFields c)))) =
      { c with peek_enabled := true } ∧
    load_config (some (JDoc.obj (withoutKey "alerts_enabled" (cfgFields c)))) =
      { c with alerts_enabled := true } ∧
    load_config (some (JDoc.obj (withoutKey "gpu_fan_max_rpm" (cfgFields c)))) =
      { c with gpu_fan_max_rpm := 2200 } ∧
    load_config (some (JDoc.obj (withoutKey "cpu_fan_max_rpm" (cfgFields c)))) =
      { c with cpu_fan_max_rpm := 1800 } ∧
    (∀ v, numRejected v = true →
      load_config (some (JDoc.obj (withKey "x" v (cfgFields c)))) = { c with x := 50 }) ∧
    (∀ v, numRejected v = true →
      load_config (some (JDoc.obj (withKey "y" v (cfgFields c)))) = { c with y := 50 }) ∧
    (∀ v, boolRejected v = true →
      load_config (some (JDoc.obj (withKey "peek_enabled" v (cfgFields c)))) =
        { c with peek_enabled := true }) ∧
    (∀ v, boolRejected v = true →
      load_config (some (JDoc.obj (withKey "alerts_enabled" v (cfgFields c)))) =
        { c with alerts_enabled := true }) ∧
    (∀ v, posRejected v = true →
      load_config (some (JDoc.obj (withKey "gpu_fan_max_rpm" v (cfgFields c)))) =
        { c with gpu_fan_max_rpm := 2200 }) ∧
    (∀ v, posRejected v = true →
      load_config (some (JDoc.obj (withKey "cpu_fan_max_rpm" v (cfgFields c)))) =
        { c with cpu_fan_max_rpm := 1800 }) := by
  obtain ⟨x, y, p, a, g, cf⟩ := c
  simp only [Config.mk.injEq] at *
  have hgne : ¬(g ≤ 0) := by omega
  have hcne : ¬(cf ≤ 0) := by omega
  refine ⟨?_, ?_, ?_, ?_, ?_, ?_, ?_, ?_, ?_, ?_, ?_, ?_, ?_⟩
  · simp [load_config, save_config, cfgFields, loadIntField, loadBoolField,
      loadPosField, asNum, List.lookup, hgne, hcne]
  · simp [load_config, withoutKey, cfgFields, loadIntField, loadBoolField,
      loadPosField, asNum, List.lookup, hgne, hcne]
  · simp [load_config, withoutKey, cfgFields, loadIntField, loadBoolField,
      loadPosField, asNum, List.lookup, hgne, hcne]
  · simp [load_config, withoutKey, cfgFields, loadIntField, loadBoolField,
      loadPosField, asNum, List.lookup, hgne, hcne]
  · simp [load_config, withoutKey, cfgFields, loadIntField, loadBoolField,
      loadPosField, asNum, List.lookup, hgne, hcne]
  · simp [load_config, withoutKey, cfgFields, loadIntField, loadBoolField,
      loadPosField, asNum, List.lookup, hgne, hcne]
  · simp [load_config, withoutKey, cfgFields, loadIntField, loadBoolField,
      loadPosField, asNum, List.lookup, hgne, hcne]
  · intro v hv
    cases v with
    | jnull =>
      simp [load_config, withKey, cfgFields, loadIntField, loadBoolField,
        loadPosField, asNum, List.lookup, hgne, hcne]
    | jbool b => simp [numRejected, asNum] at hv
    | jint n => simp [numRejected, asNum] at hv
    | jstr s =>
      simp [load_config, withKey, cfgFields, loadIntField, loadBoolField,
        loadPosField, asNum, List.lookup, hgne, hcne]
  · intro v hv
    cases v with
    | jnull =>
      simp [load_config, withKey, cfgFields, loadIntField, loadBoolField,
        loadPosField, asNum, List.lookup, hgne, hcne]
    | jbool b => simp [numRejected, asNum] at hv
    | jint n => simp [numRejected, asNum] at hv
    | jstr s =>
      simp [load_config, withKey, cfgFields, loadIntField, loadBoolField,
        loadPosField, asNum, List.lookup, hgne, hcne]
  · intro v hv
    cases v with
    | jbool b => simp [boolRejected] at hv
    | jnull =>
      simp [load_config, withKey, cfgFields, loadIntField, loadBoolField,
        loadPosField, asNum, List.lookup, hgne, hcne]
    | jint n =>
      simp [load_config, withKey, cfgFields, loadIntField, loadBoolField,
        loadPosField, asNum, List.lookup, hgne, hcne]
    | jstr s =>
      simp [load_config, withKey, cfgFields, loadIntField, loadBoolField,
        loadPosField, asNum, List.lookup, hgne, hcne]
  · intro v hv
    cases v with
    | jbool b => simp [boolRejected] at hv
    | jnull =>
      simp [load_config, withKey, cfgFields, loadIntField, loadBoolField,
        loadPosField, asNum, List.lookup, hgne, hcne]
    | jint n =>
      simp [load_config, withKey, cfgFields, loadIntField, loadBoolField,
        loadPosField, asNum, List.lookup, hgne, hcne]
    | jstr s =>
      simp [load_config, withKey, cfgFields, loadIntField, loadBoolField,
        loadPosField, asNum, List.lookup, hgne, hcne]
  · intro v hv
    cases v with
    | jnull =>
      simp [load_config, withKey, cfgFields, loadIntField, loadBoolField,
        loadPosField, asNum, List.lookup, hgne, hcne]
    | jstr s =>
      simp [load_config, withKey, cfgFields, loadIntField, loadBoolField,
        loadPosField, asNum, List.lookup, hgne, hcne]
    | jint n =>
      have hn : n ≤ 0 := by simpa [posRejected, asNum] using hv
      simp [load_config, withKey, cfgFields, loadIntField, loadBoolField,
        loadPosField, asNum, List.lookup, hgne, hcne, hn]
    | jbool b =>
      cases b with
      | true => simp [posRejected, asNum] at hv
      | false =>
        simp [load_config, withKey, cfgFields, loadIntField, loadBoolField,
          loadPosField, asNum, List.lookup, hgne, hcne]
  · intro v hv
    cases v with
    | jnull =>
      simp [load_config, withKey, cfgFields, loadIntField, loadBoolField,
        loadPosField, asNum, List.lookup, hgne, hcne]
    | jstr s =>
      simp [load_config, withKey, cfgFields, loadIntField, loadBoolField,
        loadPosField, asNum, List.lookup, hgne, hcne]
    | jint n =>
      have hn : n ≤ 0 := by simpa [posRejected, asNum] using hv
      simp [load_config, withKey, cfgFields, loadIntField, loadBoolField,
        loadPosField, asNum, List.lookup, hgne, hcne, hn]
    | jbool b =>
      cases b with
      | true => simp [posRejected, asNum] at hv
      | false =>
        simp [load_config, withKey, cfgFields, loadIntField, loadBoolField,
          loadPosField, asNum, List.lookup, hgne, hcne]


/-- Witness for C7 (amended): a concrete valid config round-trips. -/
theorem config_roundtrip_and_defaults_witness :
    0 < (⟨120, 240, false, true, 2500, 1600⟩ : Config).gpu_fan_max_rpm ∧
    0 < (⟨120, 240, false, true, 2500, 1600⟩ : Config).cpu_fan_max_rpm ∧
    load_config (some (save_config ⟨120, 240, false, true, 2500, 1600⟩)) =
      (⟨120, 240, false, true, 2500, 1600⟩ : Config) :=
  ⟨by decide, by decide,
    (config_roundtrip_and_defaults ⟨120, 240, false, true, 2500, 1600⟩
      (by decide) (by decide)).1⟩


end HeatMap
